import Mathlib

/-!
Verification of the cria agent control loop (src/app/cli): a shallow
embedding of the agent loop in `agent.py`, the continuation policy and plan
generator in `intelligence.py`, and the tool registry metadata of `tools.py`,
together with theorems settling the specification's claims about them.
-/

namespace Cria

/-- Python's substring test `needle in hay`: some tail of `hay` starts with
`needle`. -/
def strContains (hay needle : String) : Bool :=
  hay.toList.tails.any (fun t => needle.toList.isPrefixOf t)

/-- Python's `str.lower()`, modelled as a per-character map (all strings the
loop inspects are ASCII). -/
def pyLower (s : String) : String :=
  String.mk (s.toList.map Char.toLower)

/-- One parameter of a tool's keyword signature: its name and whether it is
required, i.e. whether `inspect.signature` reports no default for it. -/
structure Param where
  name : String
  required : Bool
deriving DecidableEq, Repr

/-- The tool registry built by `get_available_tools` in `agent.py`, in the
dict's insertion order, paired with each tool's parameter list in declared
order as `inspect.signature` yields it from the `def`s in `tools.py`.  The
callables themselves are modelled separately by a behaviour oracle; argument
values are uninterpreted by the loop (only key presence matters). -/
def available_tools : List (String × List Param) :=
  [("list_files", [⟨"path", false⟩, ⟨"recursive", false⟩]),
   ("read_file", [⟨"path", true⟩]),
   ("read_multiple_files", [⟨"paths", true⟩]),
   ("write_file", [⟨"path", true⟩, ⟨"content", true⟩]),
   ("execute_command", [⟨"command", true⟩]),
   ("get_project_overview", []),
   ("explore_codebase", [⟨"pattern", false⟩, ⟨"file_type", false⟩, ⟨"max_files", false⟩]),
   ("analyze_file", [⟨"file_path", true⟩, ⟨"include_content", false⟩]),
   ("find_code_patterns", [⟨"pattern", true⟩, ⟨"file_types", false⟩, ⟨"context_lines", false⟩]),
   ("get_file_dependencies", [⟨"file_path", true⟩]),
   ("navigate_to_symbol", [⟨"symbol_name", true⟩, ⟨"file_hint", false⟩]),
   ("get_code_flow", [⟨"entry_point", true⟩]),
   ("suggest_improvements", [⟨"file_path", true⟩]),
   ("get_project_health", []),
   ("execute_with_context", [⟨"command", true⟩, ⟨"working_dir", false⟩]),
   ("find_code_smells", [⟨"file_path", true⟩]),
   ("suggest_refactoring", [⟨"file_path", true⟩]),
   ("generate_test_suggestions", [⟨"file_path", true⟩]),
   ("find_security_issues", [⟨"file_path", true⟩]),
   ("get_code_metrics", [⟨"file_path", true⟩]),
   ("generate_documentation_suggestions", [⟨"file_path", true⟩]),
   ("read_and_summarize_project", [])]

/-- The registry's tool names, in registration order. -/
def toolNames : List String := available_tools.map (·.1)

/-- A parsed model action.  The loop interprets the keys `thought` (a JSON
object, when a dict), `tool` and `args`; `none` models an absent key (the
validator reads `action.get("args", {})`, while the dispatch site reads
`action["args"]`, so the distinction is observable).  Other keys of the
parsed JSON (`plan`, `progress`, ...) are never read by the loop and are
elided here; JSON argument values are uninterpreted by the loop, so they are
modelled as strings. -/
structure Action where
  thought : Option (List (String × String))
  tool : Option String
  args : Option (List (String × String))
deriving DecidableEq, Repr

/-- Function `criticize_tool_call` from `agent.py`: fail-fast validation of an action,
returning at most one criticism.  The Python checks, in order: falsy `tool`
field; the reserved `finish` tool requiring `args["response"]`; unknown tool
name (the message interpolates the Python list repr of the registry's keys,
rendered here by `toString`); first missing required parameter in declared
order; first undeclared argument key in the args' insertion order.  The
enclosing `try/except` in the source can only fire if `inspect.signature`
itself fails, which cannot happen for the registered callables, so it has no
counterpart here. -/
def criticize_tool_call (action : Action) : Option String :=
  let tool_args := action.args.getD []
  match action.tool with
  | none => some "The 'tool' field is missing in your response."
  | some tool_name =>
    if tool_name = "" then
      some "The 'tool' field is missing in your response."
    else if tool_name = "finish" then
      if (tool_args.lookup "response").isNone then
        some "The 'response' field is missing in the 'finish' tool."
      else
        none
    else
      match available_tools.lookup tool_name with
      | none =>
        some ("Unknown tool '" ++ tool_name ++ "'. Please choose from the available tools: "
              ++ toString toolNames)
      | some params =>
        match params.find? (fun p => p.required && (tool_args.lookup p.name).isNone) with
        | some p =>
          some ("Missing required argument '" ++ p.name ++ "' for tool '" ++ tool_name ++ "'.")
        | none =>
          match tool_args.find? (fun kv => !(params.any (fun p => p.name == kv.1))) with
          | some kv =>
            some ("Unexpected argument '" ++ kv.1 ++ "' for tool '" ++ tool_name ++ "'.")
          | none => none

/-- Outcome of invoking a tool's body: either a normally returned string or a
raised exception, carrying the exception's message text. -/
inductive ToolResult where
  | ok (s : String)
  | raises (msg : String)
deriving DecidableEq, Repr

/-- The `try`/`except` block of `execute_tool` in `agent.py`, parameterised by
a behaviour oracle for the ~20 tool bodies (file I/O, subprocess, analysis —
external collaborators).  An exception raised by the tool body is caught here
and converted to the error observation, so the block itself always produces a
string. -/
def execute_tool_body (behavior : String → List (String × String) → ToolResult)
    (tool_name : String) (tool_args : List (String × String)) : String :=
  match behavior tool_name tool_args with
  | .ok s => s
  | .raises e => "Error executing tool '" ++ tool_name ++ "': " ++ e

/-- Function `execute_tool` from `agent.py`.  The registry lookup
`available_tools[tool_name]` is performed OUTSIDE the `try` block, so for an
unregistered name it raises `KeyError(tool_name)`, which propagates to the
caller; that uncaught exception is modelled as `Except.error` carrying the
`KeyError` text.  Only for registered names does the `try` block run and turn
any tool-body exception into the error observation. -/
def execute_tool (behavior : String → List (String × String) → ToolResult)
    (tool_name : String) (tool_args : List (String × String)) : Except String String :=
  match available_tools.lookup tool_name with
  | none => Except.error ("KeyError: '" ++ tool_name ++ "'")
  | some _ => Except.ok (execute_tool_body behavior tool_name tool_args)

/-- Method `AgentIntelligence.should_continue` from `intelligence.py`: the pure,
ordered, first-match continuation policy over
`(observation, iteration, max_iterations)`. -/
def should_continue (current_observation : String) (iteration max_iterations : Nat) :
    Bool × String :=
  if iteration ≥ max_iterations then
    (false, "Maximum iterations reached")
  else
    let obs_lower := pyLower current_observation
    if strContains obs_lower "successfully wrote" && strContains obs_lower "readme.md" then
      (false, "Task completed - README.md has been written")
    else if strContains obs_lower "found" && strContains obs_lower "files"
        && strContains obs_lower "matching" then
      (true, "Found files, need to read and process them")
    else if strContains obs_lower "project analysis summary"
        || strContains obs_lower "file analysis" then
      (true, "Read files, need to write summary to README.md")
    else if strContains obs_lower "error" && iteration > 3 then
      (false, "Too many errors encountered")
    else if strContains obs_lower "no files found" && iteration < 5 then
      (true, "Still searching for files")
    else if ["analyzing", "exploring", "searching", "processing"].any
        (fun w => strContains obs_lower w) then
      (true, "Still processing")
    else if ["next", "continue", "more", "additional"].any
        (fun w => strContains obs_lower w) then
      (true, "More work indicated")
    else
      (true, "Continuing exploration")

/-- The result record of `AgentIntelligence.analyze_user_intent`.  The Python
float confidences 0.5 / 0.7 / 0.8 are carried as exact rationals. -/
structure IntentAnalysis where
  intent_type : String
  complexity : String
  suggested_tools : List String
  approach : String
  confidence : Rat
deriving DecidableEq, Repr

/-- Method `AgentIntelligence.analyze_user_intent` from `intelligence.py`: keyword
classification of a goal.  Each `any(word in goal_lower for word in [...])` is
a substring test on the lowered goal; the three mutation phases (intent,
complexity, approach) update the initial record in order. -/
def analyze_user_intent (user_goal : String) : IntentAnalysis :=
  let goal_lower := pyLower user_goal
  let hasAny : List String → Bool := fun ws => ws.any (fun w => strContains goal_lower w)
  let base : IntentAnalysis :=
    { intent_type := "unknown", complexity := "medium", suggested_tools := [],
      approach := "exploratory", confidence := (1 : Rat) / 2 }
  let a1 :=
    if hasAny ["find", "search", "locate", "where", "which"] then
      { base with
        intent_type := "search",
        suggested_tools := ["get_project_overview", "explore_codebase",
                            "find_code_patterns", "navigate_to_symbol"],
        confidence := (4 : Rat) / 5 }
    else if hasAny ["analyze", "understand", "explain", "what", "how"] then
      { base with
        intent_type := "analysis",
        suggested_tools := ["get_project_overview", "analyze_file",
                            "get_code_flow", "get_file_dependencies"],
        confidence := (4 : Rat) / 5 }
    else if hasAny ["create", "write", "add", "implement", "build"] then
      { base with
        intent_type := "creation",
        suggested_tools := ["get_project_overview", "analyze_file",
                            "write_file", "execute_with_context"],
        confidence := (7 : Rat) / 10 }
    else if hasAny ["fix", "debug", "error", "problem", "issue"] then
      { base with
        intent_type := "debugging",
        suggested_tools := ["get_project_overview", "find_code_patterns",
                            "analyze_file", "execute_with_context"],
        confidence := (4 : Rat) / 5 }
    else if hasAny ["improve", "optimize", "refactor", "better"] then
      { base with
        intent_type := "improvement",
        suggested_tools := ["get_project_overview", "analyze_file",
                            "suggest_improvements", "get_project_health"],
        confidence := (7 : Rat) / 10 }
    else base
  let a2 :=
    if hasAny ["all", "entire", "everything", "complete", "comprehensive"] then
      { a1 with complexity := "high" }
    else if hasAny ["simple", "quick", "just", "only"] then
      { a1 with complexity := "low" }
    else a1
  if a2.intent_type = "search" then { a2 with approach := "pattern_matching" }
  else if a2.intent_type = "analysis" then { a2 with approach := "deep_dive" }
  else if a2.intent_type = "creation" then { a2 with approach := "iterative_build" }
  else if a2.intent_type = "debugging" then { a2 with approach := "systematic_investigation" }
  else if a2.intent_type = "improvement" then { a2 with approach := "assessment_first" }
  else a2

/-- The stop-word set of `AgentIntelligence.extract_key_terms`. -/
def stop_words : List String :=
  ["the", "a", "an", "and", "or", "but", "in", "on", "at", "to", "for",
   "of", "with", "by", "is", "are", "was", "were", "be", "been", "have",
   "has", "had", "do", "does", "did", "will", "would", "could", "should",
   "this", "that", "these", "those", "i", "you", "he", "she", "it", "we", "they"]

/-- A regex word character, `[a-zA-Z0-9_]`. -/
def isWordChar (c : Char) : Bool := c.isAlphanum || c = '_'

/-- Splits a character list into its maximal runs of word characters
(accumulator holds the current run, reversed). -/
def wordRunsAux : List Char → List Char → List (List Char)
  | acc, [] => if acc.isEmpty then [] else [acc.reverse]
  | acc, c :: cs =>
    if isWordChar c then wordRunsAux (c :: acc) cs
    else if acc.isEmpty then wordRunsAux [] cs
    else acc.reverse :: wordRunsAux [] cs

/-- Method `AgentIntelligence.extract_key_terms` from `intelligence.py`.  The regex
`\b[a-zA-Z_][a-zA-Z0-9_]*\b` over the lowered text matches exactly the maximal
word-character runs whose first character is a letter or underscore (a run
starting with a digit has no inner word boundary); Python's `list(set(...))`
deduplication, whose order is unspecified, is modelled as first-occurrence
deduplication. -/
def extract_key_terms (text : String) : List String :=
  let runs := wordRunsAux [] (pyLower text).toList
  let words := (runs.filter (fun r =>
    match r with
    | c :: _ => c.isAlpha || c = '_'
    | [] => false)).map String.mk
  let key_terms := words.filter (fun w => !stop_words.contains w && w.length > 2)
  key_terms.eraseDups

/-- One advisory plan step, `{tool, args?, reason, priority}`; the JSON scalar
`50` in an args template is rendered as the string `"50"` (argument values are
uninterpreted). -/
structure PlanStep where
  tool : String
  args : Option (List (String × String))
  reason : String
  priority : String
deriving DecidableEq, Repr

/-- The initial step(s) of `AgentIntelligence.generate_smart_plan`: the
read-files special case (with an extra write step when the goal also mentions
writing a readme), else the generic project-overview opener. -/
def initial_plan_steps (user_goal : String) : List PlanStep :=
  let gl := pyLower user_goal
  if strContains gl "read" && strContains gl "file" then
    [{ tool := "explore_codebase", args := some [("pattern", "**/*.py"), ("max_files", "50")],
       reason := "Find all Python files to read and analyze", priority := "high" },
     { tool := "read_multiple_files", args := none,
       reason := "Read all relevant files to understand the project", priority := "high" }]
    ++ (if strContains gl "write" && strContains gl "readme" then
          [{ tool := "write_file", args := none,
             reason := "Write comprehensive description to README.md", priority := "high" }]
        else [])
  else
    [{ tool := "get_project_overview", args := none,
       reason := "Understand project structure and context", priority := "high" }]

/-- The intent-specific steps appended by `generate_smart_plan` after the
initial step(s): fixed per-intent templates, with the search template's
pattern step emitted only when key terms were extracted; an unclassified
("unknown") intent appends nothing. -/
def intent_plan_steps (user_goal : String) : List PlanStep :=
  let intent := analyze_user_intent user_goal
  let key_terms := extract_key_terms user_goal
  if intent.intent_type = "search" then
    (if !key_terms.isEmpty then
      [{ tool := "find_code_patterns",
         args := some [("pattern", String.intercalate "|" key_terms)],
         reason := "Search for patterns related to: " ++ String.intercalate ", " key_terms,
         priority := "high" }]
     else [])
    ++ [{ tool := "explore_codebase", args := none,
          reason := "Explore codebase structure to find relevant files", priority := "medium" }]
  else if intent.intent_type = "analysis" then
    [{ tool := "explore_codebase", args := some [("file_type", "py"), ("max_files", "10")],
       reason := "Find Python files to analyze", priority := "high" },
     { tool := "analyze_file", args := none,
       reason := "Analyze key files for structure and functionality", priority := "high" }]
  else if intent.intent_type = "creation" then
    [{ tool := "get_project_health", args := none,
       reason := "Assess project health before making changes", priority := "medium" },
     { tool := "explore_codebase", args := some [("file_type", "py")],
       reason := "Understand existing code structure", priority := "high" }]
  else if intent.intent_type = "debugging" then
    [{ tool := "find_code_patterns", args := some [("pattern", "error|exception|traceback|debug")],
       reason := "Look for error-related code patterns", priority := "high" },
     { tool := "get_project_health", args := none,
       reason := "Check overall project health for issues", priority := "medium" }]
  else if intent.intent_type = "improvement" then
    [{ tool := "get_project_health", args := none,
       reason := "Get comprehensive health assessment", priority := "high" },
     { tool := "suggest_improvements", args := none,
       reason := "Get specific improvement suggestions", priority := "high" }]
  else []

/-- Method `AgentIntelligence.generate_smart_plan` from `intelligence.py`: the
initial step(s) followed by the intent-specific appendix.  The Python body
builds the same list by appending to `plan` in this exact order. -/
def generate_smart_plan (user_goal : String) : List PlanStep :=
  initial_plan_steps user_goal ++ intent_plan_steps user_goal

/-- One message of the conversation log kept by `Memory` in `memory.py`
(`add_message` appends, `get_history` returns the ordered log). -/
structure Message where
  role : String
  content : String
deriving DecidableEq, Repr

/-- The constants of `agent.py`. -/
def MAX_ITERATIONS : Nat := 10

/-- The auto-execute allow-list literal of `run_agent` (a Python set; only
membership is ever used). -/
def auto_execute_tools : List String :=
  ["get_project_overview", "explore_codebase", "analyze_file",
   "find_code_patterns", "get_file_dependencies", "navigate_to_symbol",
   "get_code_flow", "suggest_improvements", "get_project_health",
   "list_files", "read_file", "read_multiple_files", "write_file",
   "find_code_smells", "suggest_refactoring", "generate_test_suggestions",
   "find_security_issues", "get_code_metrics", "generate_documentation_suggestions",
   "read_and_summarize_project"]

/-- Effect classification of each registered tool, read off its implementation
in `tools.py`: `true` for the tools whose body performs a filesystem write or
runs an arbitrary shell command (`write_file`: `open(path, "w")` and
`f.write`; `execute_command` and `execute_with_context`: `subprocess.run` of a
caller-chosen command), `false` for the read-only exploration/analysis tools,
whose bodies only read files and compute report strings. -/
def tool_mutates (t : String) : Bool :=
  t = "write_file" || t = "execute_command" || t = "execute_with_context"

/-- Dict assignment `d[k] = v` on an insertion-ordered string map: overwrite
in place if the key exists, else append. -/
def setKey (m : List (String × String)) (k v : String) : List (String × String) :=
  if m.any (fun kv => kv.1 = k) then
    m.map (fun kv => if kv.1 = k then (k, v) else kv)
  else m ++ [(k, v)]

/-- The in-place annotation of `run_agent` before display: when the action's
`thought` is a dict, record the original goal and the 1-based iteration
number in it. -/
def annotate_action (a : Action) (goal : String) (i : Nat) : Action :=
  match a.thought with
  | some t =>
    { a with thought := some (setKey (setKey t "original_goal" goal) "current_iteration" (toString (i + 1))) }
  | none => a

/-- Serialisation of an action as `json.dumps` renders it, over the fields the
loop interprets (braces written as escapes). -/
def dumpAction (a : Action) : String :=
  let kvs : List (String × String) → String := fun m =>
    "\x7b" ++ String.intercalate ", " (m.map (fun kv => "\x22" ++ kv.1 ++ "\x22: \x22" ++ kv.2 ++ "\x22")) ++ "\x7d"
  "\x7b\x22thought\x22: "
    ++ (match a.thought with | none => "null" | some t => kvs t)
    ++ ", \x22tool\x22: "
    ++ (match a.tool with | none => "null" | some t => "\x22" ++ t ++ "\x22")
    ++ ", \x22args\x22: "
    ++ (match a.args with | none => "null" | some m => kvs m) ++ "\x7d"

/-- The action synthesised by the one-shot file-not-found recovery branch:
`{"tool": "execute_command", "args": {"command": "pwd"}}`. -/
def probe_action : Action :=
  { thought := none, tool := some "execute_command", args := some [("command", "pwd")] }

/-- The corrective user message of the recovery branch. -/
def recovery_user_message (observation : String) : String :=
  "Observation: " ++ observation ++
    "\n\nI got a 'file not found' error. I will now run `pwd` to find out my current working directory."

/-- How one invocation of `run_agent` can leave its iteration loop:
the `finish` action, a continuation-policy stop, the user declining a
confirmation, exhaustion of `MAX_ITERATIONS` (the `for`/`else` branch), the
model yielding a falsy parsed action (`if not action: break`), or an uncaught
`KeyError` escaping the `execute_tool(action["tool"], action["args"])`
dispatch: either at the `action["args"]` access when a validated action
carries no `args` key (possible exactly for registered tools with no required
parameters, since `criticize_tool_call` reads `action.get("args", {})`), or
at the registry lookup inside `execute_tool` (unreachable from the loop,
whose validated dispatches and synthesised probe always name registered
tools). -/
inductive ExitMode where
  | finished
  | policyStop
  | userAbort
  | capExhausted
  | noAction
  | keyError
deriving DecidableEq, Repr

/-- The arguments of the one `learn_from_interaction` call the loop makes on
its exit path, when it makes one. -/
structure LearnRecord where
  goal : String
  actions : List Action
  final_result : String
  success : Bool
deriving DecidableEq, Repr

/-- Everything observable about one `run_agent` execution: how the loop left,
the final conversation log and `actions_taken` list, the learning call, plus
two ghost traces recording the loop's interactions with its boundaries — the
iterations at which `get_user_input` was consulted, and the
`(observation, iteration)` arguments of each `should_continue` call. -/
structure RunResult where
  exitMode : ExitMode
  memory : List Message
  actions_taken : List Action
  learned : Option LearnRecord
  confirmRequests : List Nat
  decideCalls : List (String × Nat)
deriving DecidableEq, Repr

/-- The iteration loop of `run_agent` (`for i in range(MAX_ITERATIONS)` with
its `else` clause), parameterised by its three boundaries: `llm` abstracts
`get_next_action` (returning `none` when the parsed JSON is falsy — the
`if not action` guard; the unbounded parse-retry inside `get_next_action`
never returns a value and is not represented), `ui` abstracts
`get_user_input` at each iteration, and `bh` abstracts the tool bodies.
`fuel` is the number of remaining iterations, `i` the current index, and the
remaining arguments thread the loop's state (`display_*` calls and the
printed contextual suggestions have no observable effect and are omitted). -/
def runLoop (llm : List Message → Option Action) (ui : Nat → String)
    (bh : String → List (String × String) → ToolResult) (goal : String) :
    Nat → Nat → List Message → List Action → List Nat → List (String × Nat) → RunResult
  | 0, _i, memory, taken, confirms, decides =>
    { exitMode := .capExhausted, memory := memory, actions_taken := taken,
      learned := some { goal := goal, actions := taken,
                        final_result := "Maximum iterations reached", success := false },
      confirmRequests := confirms, decideCalls := decides }
  | fuel + 1, i, memory, taken, confirms, decides =>
    match llm memory with
    | none =>
      { exitMode := .noAction, memory := memory, actions_taken := taken, learned := none,
        confirmRequests := confirms, decideCalls := decides }
    | some a0 =>
      let action := annotate_action a0 goal i
      match criticize_tool_call action with
      | some criticism =>
        runLoop llm ui bh goal fuel (i + 1)
          (memory ++ [⟨"assistant", dumpAction action⟩,
                      ⟨"user", "Your last tool call was invalid. " ++ criticism
                               ++ ". Please try again with the correct arguments."⟩])
          taken confirms decides
      | none =>
        if action.tool = some "finish" then
          { exitMode := .finished, memory := memory, actions_taken := taken,
            learned := some { goal := goal, actions := taken,
                              final_result := ((action.args.getD []).lookup "response").getD "",
                              success := true },
            confirmRequests := confirms, decideCalls := decides }
        else
          let tname := action.tool.getD ""
          let go : List Nat → RunResult := fun confirms' =>
            match action.args with
            | none =>
              { exitMode := .keyError, memory := memory, actions_taken := taken,
                learned := none, confirmRequests := confirms', decideCalls := decides }
            | some aargs =>
              match execute_tool bh tname aargs with
              | .error _ =>
                { exitMode := .keyError, memory := memory, actions_taken := taken,
                  learned := none, confirmRequests := confirms', decideCalls := decides }
              | .ok observation =>
                let taken' := taken ++ [action]
                let deciding : Action → String → List Message → RunResult :=
                  fun act obs memory' =>
                    let decides' := decides ++ [(obs, i)]
                    if (should_continue obs i MAX_ITERATIONS).1 then
                      runLoop llm ui bh goal fuel (i + 1)
                        (memory' ++ [⟨"assistant", dumpAction act⟩,
                                     ⟨"user", "Observation: " ++ obs⟩])
                        taken' confirms' decides'
                    else
                      { exitMode := .policyStop, memory := memory', actions_taken := taken',
                        learned := none, confirmRequests := confirms', decideCalls := decides' }
                if strContains observation "Error: File"
                    && strContains observation "not found" then
                  let memory' := memory ++ [⟨"assistant", dumpAction action⟩,
                                            ⟨"user", recovery_user_message observation⟩]
                  match execute_tool bh "execute_command" [("command", "pwd")] with
                  | .error _ =>
                    { exitMode := .keyError, memory := memory', actions_taken := taken',
                      learned := none, confirmRequests := confirms', decideCalls := decides }
                  | .ok probe_obs => deciding probe_action probe_obs memory'
                else
                  deciding action observation memory
          if auto_execute_tools.contains tname then
            go confirms
          else if pyLower (ui i) = "y" then
            go (confirms ++ [i])
          else
            { exitMode := .userAbort, memory := memory, actions_taken := taken,
              learned := none, confirmRequests := confirms ++ [i], decideCalls := decides }

/-- Function `run_agent` from `agent.py`: generate the advisory plan (printed only),
seed a fresh `Memory` with the system prompt (extended with the goal-focus
suffix) and the goal, and run the iteration loop.  `base_prompt` stands for
the `get_system_prompt()` text, whose content the loop never inspects. -/
def run_agent (llm : List Message → Option Action) (ui : Nat → String)
    (bh : String → List (String × String) → ToolResult)
    (base_prompt goal : String) : RunResult :=
  let _smart_plan := generate_smart_plan goal
  let system_prompt := base_prompt
    ++ "\n\n**CURRENT GOAL**: " ++ goal
    ++ "\n**IMPORTANT**: Stay focused on this specific goal throughout the conversation. Do not deviate from the user's request."
  runLoop llm ui bh goal MAX_ITERATIONS 0
    [⟨"system", system_prompt⟩, ⟨"user", goal⟩] [] [] []

/-- A first match is the head of the filtered list. -/
theorem find?_eq_head?_filter {α : Type} (p : α → Bool) (l : List α) :
    l.find? p = (l.filter p).head? := by
  induction l with
  | nil => rfl
  | cons a t ih =>
    cases h : p a with
    | true => rw [List.find?_cons_of_pos _ h, List.filter_cons, if_pos h]; rfl
    | false =>
      rw [List.find?_cons_of_neg _ (by simp [h]), List.filter_cons, if_neg (by simp [h]), ih]

/-- A successful association-list lookup means the key is among the keys. -/
theorem lookup_mem_keys {β : Type} (l : List (String × β)) (k : String) (v : β)
    (h : l.lookup k = some v) : k ∈ l.map Prod.fst := by
  induction l with
  | nil => simp [List.lookup] at h
  | cons a t ih =>
    rw [List.lookup] at h
    by_cases hk : (k == a.1) = true
    · simp [eq_of_beq hk]
    · rw [Bool.not_eq_true] at hk
      rw [hk] at h
      simp [ih h]

/-- No registered tool name is falsy or the reserved terminal name. -/
theorem toolNames_not_reserved : ∀ n ∈ toolNames, ¬(n = "" ∨ n = "finish") := by decide

/-- A validated non-finish action names a registered tool: when the validator
returns no criticism and the tool field is `some t` with `t ≠ "finish"`, the
registry lookup for `t` succeeds. -/
theorem criticize_none_registered (a : Action) (t : String)
    (htool : a.tool = some t) (hfin : t ≠ "finish")
    (hcrit : criticize_tool_call a = none) :
    ∃ ps, available_tools.lookup t = some ps := by
  simp only [criticize_tool_call, htool] at hcrit
  by_cases h0 : t = ""
  · rw [if_pos h0] at hcrit
    exact absurd hcrit (by simp)
  · rw [if_neg h0, if_neg hfin] at hcrit
    cases hl : available_tools.lookup t with
    | none =>
      simp only [hl] at hcrit
      exact absurd hcrit (by simp)
    | some ps => exact ⟨ps, rfl⟩

/-- A validated action has a non-falsy tool field. -/
theorem criticize_none_tool_some (a : Action)
    (hcrit : criticize_tool_call a = none) : ∃ t, a.tool = some t := by
  cases htool : a.tool with
  | none =>
    simp only [criticize_tool_call, htool] at hcrit
    exact absurd hcrit (by simp)
  | some t => exact ⟨t, rfl⟩

/-- For a registered name, `execute_tool` returns the observation produced by
its try block. -/
theorem execute_tool_registered (bh : String → List (String × String) → ToolResult)
    (name : String) (args : List (String × String)) (ps : List Param)
    (h : available_tools.lookup name = some ps) :
    execute_tool bh name args = Except.ok (execute_tool_body bh name args) := by
  simp [execute_tool, h]

/-- The recovery probe's tool `execute_command` is registered, so its
dispatch always returns the try-block observation. -/
theorem execute_tool_execute_command (bh : String → List (String × String) → ToolResult)
    (args : List (String × String)) :
    execute_tool bh "execute_command" args
      = Except.ok (execute_tool_body bh "execute_command" args) := rfl

/-- The iteration loop only ever appends to the conversation log, the
`actions_taken` list and the trace of continuation-policy consultations. -/
theorem runLoop_prefixes (llm : List Message → Option Action) (ui : Nat → String)
    (bh : String → List (String × String) → ToolResult) (goal : String) :
    ∀ (fuel i : Nat) (mem : List Message) (taken : List Action)
      (conf : List Nat) (dec : List (String × Nat)),
      mem <+: (runLoop llm ui bh goal fuel i mem taken conf dec).memory
      ∧ taken <+: (runLoop llm ui bh goal fuel i mem taken conf dec).actions_taken
      ∧ dec <+: (runLoop llm ui bh goal fuel i mem taken conf dec).decideCalls := by
  intro fuel
  induction fuel with
  | zero =>
    intro i mem taken conf dec
    exact ⟨List.prefix_rfl, List.prefix_rfl, List.prefix_rfl⟩
  | succ fuel ih =>
    intro i mem taken conf dec
    simp only [runLoop]
    repeat' split
    all_goals refine ⟨?_, ?_, ?_⟩
    all_goals first
      | exact List.prefix_rfl
      | exact List.prefix_append _ _
      | exact (List.prefix_append _ _).trans (List.prefix_append _ _)
      | exact (ih _ _ _ _ _).1
      | exact (ih _ _ _ _ _).2.1
      | exact (ih _ _ _ _ _).2.2
      | exact (List.prefix_append _ _).trans (ih _ _ _ _ _).1
      | exact (List.prefix_append _ _).trans (ih _ _ _ _ _).2.1
      | exact (List.prefix_append _ _).trans (ih _ _ _ _ _).2.2
      | exact ((List.prefix_append _ _).trans (List.prefix_append _ _)).trans (ih _ _ _ _ _).1

/-- C4: for every observation text and every cap value,
`should_continue(observation, cap, cap)` is the stop decision with the
maximum-iterations reason ("Maximum iterations reached" verbatim in the
code); the iteration-cap rule is evaluated before every text-based rule, so
it fires regardless of the observation's content. -/
theorem c4_cap_rule_has_priority (obs : String) (cap : Nat) :
    should_continue obs cap cap = (false, "Maximum iterations reached") := by
  simp [should_continue]

/-- C5: every observation that case-insensitively contains both
"successfully wrote" and "readme.md" makes `should_continue` return the stop
decision with the task-completed reason ("Task completed - README.md has
been written" verbatim) at any iteration strictly below the cap. -/
theorem c5_readme_write_stops (obs : String) (i cap : Nat) (h : i < cap)
    (h1 : strContains (pyLower obs) "successfully wrote" = true)
    (h2 : strContains (pyLower obs) "readme.md" = true) :
    should_continue obs i cap = (false, "Task completed - README.md has been written") := by
  have hlt : ¬ i ≥ cap := Nat.not_le.mpr h
  simp [should_continue, hlt, h1, h2]

/-- Witness for C5 at the spec's Scenario C input. -/
theorem c5_witness :
    0 < 10
    ∧ strContains (pyLower "Successfully wrote to 'README.md'") "successfully wrote" = true
    ∧ strContains (pyLower "Successfully wrote to 'README.md'") "readme.md" = true
    ∧ should_continue "Successfully wrote to 'README.md'" 0 10
        = (false, "Task completed - README.md has been written") :=
  ⟨by decide, by decide, by decide,
    c5_readme_write_stops "Successfully wrote to 'README.md'" 0 10 (by decide) (by decide)
      (by decide)⟩

/-- C6: for every registered tool and every argument map whose filtered list
of omitted required parameters is non-empty, the validator returns exactly
the one criticism naming the first such parameter in the tool's declared
order (`find?` over the declared parameters in order equals the head of that
filter). -/
theorem c6_first_missing_required (name : String) (params : List Param)
    (th : Option (List (String × String))) (args : List (String × String)) (p : Param)
    (hreg : available_tools.lookup name = some params)
    (hfirst : (params.filter (fun q => q.required && (args.lookup q.name).isNone)).head?
        = some p) :
    criticize_tool_call ⟨th, some name, some args⟩
      = some ("Missing required argument '" ++ p.name ++ "' for tool '" ++ name ++ "'.") := by
  have hmem : name ∈ toolNames := by
    simpa [toolNames] using lookup_mem_keys available_tools name params hreg
  have hne := toolNames_not_reserved name hmem
  push_neg at hne
  simp [criticize_tool_call, hne.1, hne.2, hreg, find?_eq_head?_filter, hfirst]

/-- Witness for C6 at the spec's Scenario B input: `write_file` called with
only `path` draws the criticism naming `content`. -/
theorem c6_witness :
    available_tools.lookup "write_file" = some [⟨"path", true⟩, ⟨"content", true⟩]
    ∧ (([⟨"path", true⟩, ⟨"content", true⟩] : List Param).filter
        (fun q => q.required && (([("path", "x.py")].lookup q.name).isNone))).head?
        = some ⟨"content", true⟩
    ∧ criticize_tool_call ⟨none, some "write_file", some [("path", "x.py")]⟩
        = some "Missing required argument 'content' for tool 'write_file'." :=
  ⟨by decide, by decide,
    c6_first_missing_required "write_file" [⟨"path", true⟩, ⟨"content", true⟩] none
      [("path", "x.py")] ⟨"content", true⟩ (by decide) (by decide)⟩

/-- C7: the validator accepts a `finish` action exactly when its args carry
the key "response"; when it is absent, the loop does not terminate on that
action but appends the rejected action and a corrective user message to the
conversation and re-enters the think step of the next iteration. -/
theorem c7_finish_requires_response :
    (∀ (th : Option (List (String × String))) (args : Option (List (String × String))),
      criticize_tool_call ⟨th, some "finish", args⟩ = none
        ↔ ((args.getD []).lookup "response").isSome = true)
    ∧ (∀ (llm : List Message → Option Action) (ui : Nat → String)
        (bh : String → List (String × String) → ToolResult) (goal : String)
        (fuel i : Nat) (mem : List Message) (taken : List Action)
        (conf : List Nat) (dec : List (String × Nat)) (a0 a : Action),
        llm mem = some a0 → annotate_action a0 goal i = a →
        a.tool = some "finish" → (a.args.getD []).lookup "response" = none →
        runLoop llm ui bh goal (fuel + 1) i mem taken conf dec
          = runLoop llm ui bh goal fuel (i + 1)
              (mem ++ [⟨"assistant", dumpAction a⟩,
                       ⟨"user", "Your last tool call was invalid. The 'response' field is missing in the 'finish' tool.. Please try again with the correct arguments."⟩])
              taken conf dec) := by
  constructor
  · intro th args
    cases h : (args.getD []).lookup "response" with
    | none => simp [criticize_tool_call, h]
    | some v => simp [criticize_tool_call, h]
  · intro llm ui bh goal fuel i mem taken conf dec a0 a hllm ha hfin hresp
    have hcrit : criticize_tool_call a
        = some "The 'response' field is missing in the 'finish' tool." := by
      obtain ⟨th, tool, args⟩ := a
      simp only [Action.tool] at hfin
      simp only [Action.args] at hresp
      subst hfin
      simp [criticize_tool_call, hresp]
    simp only [runLoop, hllm, ha, hcrit]
    rfl

/-- Witness for C7: a `finish` carrying "response" validates; a `finish`
without it is rejected and the loop recurses with the corrective exchange
appended. -/
theorem c7_witness :
    criticize_tool_call ⟨none, some "finish", some [("response", "done")]⟩ = none
    ∧ runLoop (fun _ => some ⟨none, some "finish", some []⟩) (fun _ => "y")
        (fun _ _ => .ok "ok") "g" 1 0 [] [] [] []
      = runLoop (fun _ => some ⟨none, some "finish", some []⟩) (fun _ => "y")
        (fun _ _ => .ok "ok") "g" 0 1
        [⟨"assistant", dumpAction ⟨none, some "finish", some []⟩⟩,
         ⟨"user", "Your last tool call was invalid. The 'response' field is missing in the 'finish' tool.. Please try again with the correct arguments."⟩]
        [] [] [] :=
  ⟨(c7_finish_requires_response.1 none (some [("response", "done")])).mpr (by decide),
   c7_finish_requires_response.2 (fun _ => some ⟨none, some "finish", some []⟩)
     (fun _ => "y") (fun _ _ => .ok "ok") "g" 0 0 [] [] [] []
     ⟨none, some "finish", some []⟩ ⟨none, some "finish", some []⟩ rfl rfl rfl rfl⟩

/-- C2, counterexample: the registry lookup in `execute_tool` happens outside
the try block, so for an unregistered tool name the call raises an uncaught
KeyError instead of returning an observation string, refuting "for every tool
name ... never raises outward and always returns a string". -/
theorem c2_counterexample :
    available_tools.lookup "not_a_tool" = none
    ∧ execute_tool (fun _ _ => ToolResult.ok "x") "not_a_tool" []
        = Except.error "KeyError: 'not_a_tool'" :=
  ⟨by decide, rfl⟩

/-- C2, amended: for every REGISTERED tool name and argument map,
`execute_tool` returns a string — an exception raised inside the tool body is
caught by the try block and converted to the formatted error observation
naming the tool — and the loop then proceeds to the continuation decision
with that observation (the policy-consultation trace extends by exactly that
string at the current iteration) instead of propagating the exception.  For
an unregistered name the lookup outside the try block raises an uncaught
KeyError, a case the loop's validated dispatches never produce. -/
theorem c2_executor_contains_errors :
    (∀ (bh : String → List (String × String) → ToolResult)
        (name : String) (args : List (String × String)) (ps : List Param),
      available_tools.lookup name = some ps →
      execute_tool bh name args = Except.ok (execute_tool_body bh name args))
    ∧ (∀ (bh : String → List (String × String) → ToolResult)
        (name : String) (args : List (String × String)) (m : String),
      bh name args = ToolResult.raises m →
      execute_tool_body bh name args = "Error executing tool '" ++ name ++ "': " ++ m)
    ∧ (∀ (llm : List Message → Option Action) (ui : Nat → String)
        (bh : String → List (String × String) → ToolResult) (goal : String)
        (fuel i : Nat) (mem : List Message) (taken : List Action)
        (conf : List Nat) (dec : List (String × Nat)) (a0 a : Action)
        (tname m : String) (aargs : List (String × String)),
        llm mem = some a0 → annotate_action a0 goal i = a →
        criticize_tool_call a = none →
        a.tool = some tname → tname ≠ "finish" →
        auto_execute_tools.contains tname = true →
        a.args = some aargs →
        bh tname aargs = ToolResult.raises m →
        strContains ("Error executing tool '" ++ tname ++ "': " ++ m) "Error: File" = false →
        (dec ++ [("Error executing tool '" ++ tname ++ "': " ++ m, i)])
          <+: (runLoop llm ui bh goal (fuel + 1) i mem taken conf dec).decideCalls) := by
  refine ⟨?_, ?_, ?_⟩
  · intro bh name args ps h
    simp [execute_tool, h]
  · intro bh name args m h
    simp [execute_tool_body, h]
  · intro llm ui bh goal fuel i mem taken conf dec a0 a tname m aargs
      hllm ha hcrit htool hfin hauto hargs hraise hnorec
    obtain ⟨ps, hreg⟩ := criticize_none_registered a tname htool hfin hcrit
    have hexec : execute_tool bh tname aargs
        = Except.ok (execute_tool_body bh tname aargs) := by
      simp [execute_tool, hreg]
    have hobs : execute_tool_body bh tname aargs
        = "Error executing tool '" ++ tname ++ "': " ++ m := by
      simp [execute_tool_body, hraise]
    simp only [runLoop, hllm]
    simp only [ha, hcrit]
    simp [htool, hfin, hauto, hargs, hexec, hobs, hnorec]
    split
    · split
      · exact (runLoop_prefixes llm ui bh goal fuel (i + 1) _ _ _ _).2.2
      · exact List.prefix_rfl
    · next hna => exact absurd (by simpa using hauto) hna

/-- Membership in a list extended by one element. -/
theorem mem_append_one {α : Type} {a b : α} {l : List α} (h : a ∈ l ++ [b]) :
    a ∈ l ∨ a = b := by
  simpa using List.mem_append.mp h

/-- The thought annotation leaves the action's tool untouched. -/
theorem annotate_action_tool (a : Action) (goal : String) (i : Nat) :
    (annotate_action a goal i).tool = a.tool := by
  unfold annotate_action
  cases a.thought <;> rfl

/-- The thought annotation leaves the action's args untouched. -/
theorem annotate_action_args (a : Action) (goal : String) (i : Nat) :
    (annotate_action a goal i).args = a.args := by
  unfold annotate_action
  cases a.thought <;> rfl

/-- Witness for C2: the registered `read_file` dispatch returns its try-block
observation, a raising body yields the formatted error string, and a run
whose tool raises still consults the continuation policy on that string. -/
theorem c2_witness :
    execute_tool (fun _ _ => ToolResult.raises "boom") "read_file" [("path", "x")]
      = Except.ok (execute_tool_body (fun _ _ => ToolResult.raises "boom") "read_file"
          [("path", "x")])
    ∧ execute_tool_body (fun _ _ => ToolResult.raises "boom") "read_file" [("path", "x")]
      = "Error executing tool 'read_file': boom"
    ∧ ([("Error executing tool 'read_file': boom", 0)] : List (String × Nat))
        <+: (runLoop (fun _ => some ⟨none, some "read_file", some [("path", "x")]⟩)
              (fun _ => "y") (fun _ _ => ToolResult.raises "boom") "g" 1 0 [] [] [] []).decideCalls :=
  ⟨c2_executor_contains_errors.1 (fun _ _ => ToolResult.raises "boom") "read_file"
      [("path", "x")] [⟨"path", true⟩] (by decide),
   c2_executor_contains_errors.2.1 (fun _ _ => ToolResult.raises "boom") "read_file"
      [("path", "x")] "boom" rfl,
   c2_executor_contains_errors.2.2 (fun _ => some ⟨none, some "read_file", some [("path", "x")]⟩)
     (fun _ => "y") (fun _ _ => ToolResult.raises "boom") "g" 0 0 [] [] [] []
     ⟨none, some "read_file", some [("path", "x")]⟩ ⟨none, some "read_file", some [("path", "x")]⟩
     "read_file" "boom" [("path", "x")] rfl rfl (by decide) rfl (by decide) (by decide) rfl rfl
     (by decide)⟩

/-- Every action the loop ever hands to the executor and records in
`actions_taken` either was already recorded, names an allow-listed tool, or
was explicitly confirmed: some iteration from the current one on received the
affirmative answer "y" (case-insensitively). -/
theorem runLoop_dispatch_confirmed (llm : List Message → Option Action) (ui : Nat → String)
    (bh : String → List (String × String) → ToolResult) (goal : String) :
    ∀ (fuel i : Nat) (mem : List Message) (taken : List Action)
      (conf : List Nat) (dec : List (String × Nat)) (a : Action),
      a ∈ (runLoop llm ui bh goal fuel i mem taken conf dec).actions_taken →
      a ∈ taken ∨ auto_execute_tools.contains (a.tool.getD "") = true
        ∨ ∃ j, i ≤ j ∧ pyLower (ui j) = "y" := by
  intro fuel
  induction fuel with
  | zero =>
    intro i mem taken conf dec a hmem
    exact Or.inl hmem
  | succ fuel ih =>
    intro i mem taken conf dec a hmem
    cases hl : llm mem with
    | none =>
      simp only [runLoop, hl] at hmem
      exact Or.inl hmem
    | some a0 =>
      simp only [runLoop, hl] at hmem
      cases hc : criticize_tool_call (annotate_action a0 goal i) with
      | some crit =>
        simp only [hc] at hmem
        exact (ih _ _ _ _ _ _ hmem).imp id (Or.imp id
          (Exists.imp (fun j hj => ⟨Nat.le_trans (Nat.le_succ i) hj.1, hj.2⟩)))
      | none =>
        simp only [hc] at hmem
        by_cases hf : (annotate_action a0 goal i).tool = some "finish"
        · rw [if_pos hf] at hmem
          exact Or.inl hmem
        · rw [if_neg hf] at hmem
          by_cases hb : auto_execute_tools.contains
              ((annotate_action a0 goal i).tool.getD "") = true
          · rw [if_pos hb] at hmem
            cases hargs : (annotate_action a0 goal i).args with
            | none =>
              simp only [hargs] at hmem
              exact Or.inl hmem
            | some aargs =>
              simp only [hargs] at hmem
              repeat' split at hmem
              all_goals first
                | exact Or.inl hmem
                | exact (mem_append_one (a := a) (by simpa using hmem)).elim Or.inl
                    (fun he => Or.inr (Or.inl (by rw [he]; exact hb)))
                | exact (ih _ _ _ _ _ _ hmem).elim
                    (fun h => (mem_append_one h).elim Or.inl
                      (fun he => Or.inr (Or.inl (by rw [he]; exact hb))))
                    (fun h => h.elim (fun h2 => Or.inr (Or.inl h2))
                      (fun h3 => Or.inr (Or.inr (Exists.imp
                        (fun j hj => ⟨Nat.le_trans (Nat.le_succ i) hj.1, hj.2⟩) h3))))
          · rw [if_neg hb] at hmem
            by_cases hy0 : pyLower (ui i) = "y"
            · rw [if_pos hy0] at hmem
              cases hargs : (annotate_action a0 goal i).args with
              | none =>
                simp only [hargs] at hmem
                exact Or.inl hmem
              | some aargs =>
                simp only [hargs] at hmem
                repeat' split at hmem
                all_goals first
                  | exact Or.inl hmem
                  | exact (mem_append_one (a := a) (by simpa using hmem)).elim Or.inl
                      (fun he => Or.inr (Or.inr ⟨i, Nat.le_refl i, hy0⟩))
                  | exact (ih _ _ _ _ _ _ hmem).elim
                      (fun h => (mem_append_one h).elim Or.inl
                        (fun he => Or.inr (Or.inr ⟨i, Nat.le_refl i, hy0⟩)))
                      (fun h => h.elim (fun h2 => Or.inr (Or.inl h2))
                        (fun h3 => Or.inr (Or.inr (Exists.imp
                          (fun j hj => ⟨Nat.le_trans (Nat.le_succ i) hj.1, hj.2⟩) h3))))
            · rw [if_neg hy0] at hmem
              exact Or.inl hmem

/-- A validated, non-finish, non-allow-listed action whose confirmation
prompt is answered with anything other than "y" makes the loop return
immediately: user abort, nothing dispatched, nothing learned. -/
theorem runLoop_confirm_abort (llm : List Message → Option Action) (ui : Nat → String)
    (bh : String → List (String × String) → ToolResult) (goal : String)
    (fuel i : Nat) (mem : List Message) (taken : List Action)
    (conf : List Nat) (dec : List (String × Nat)) (a0 a : Action)
    (hllm : llm mem = some a0) (ha : annotate_action a0 goal i = a)
    (hcrit : criticize_tool_call a = none) (hfin : a.tool ≠ some "finish")
    (hauto : auto_execute_tools.contains (a.tool.getD "") = false)
    (hui : pyLower (ui i) ≠ "y") :
    runLoop llm ui bh goal (fuel + 1) i mem taken conf dec
      = { exitMode := ExitMode.userAbort, memory := mem, actions_taken := taken,
          learned := none, confirmRequests := conf ++ [i], decideCalls := dec } := by
  simp only [runLoop, hllm]
  simp only [ha, hcrit]
  rw [if_neg hfin, if_neg (by rw [hauto]; exact Bool.false_ne_true), if_neg hui]

/-- C1, counterexample: the auto-execute allow-list does not consist only of
read-only exploration/analysis tools — it contains `write_file`, whose body
writes to the filesystem, and a run that proposes `write_file` dispatches it
to the executor (it lands in `actions_taken`) without a single confirmation
prompt even though every prompt would be answered "n". -/
theorem c1_counterexample :
    "write_file" ∈ auto_execute_tools
    ∧ tool_mutates "write_file" = true
    ∧ (run_agent
        (fun _ => some ⟨none, some "write_file", some [("path", "README.md"), ("content", "hi")]⟩)
        (fun _ => "n") (fun _ _ => ToolResult.ok "Successfully wrote to 'README.md'")
        "p" "g").actions_taken
        = [⟨none, some "write_file", some [("path", "README.md"), ("content", "hi")]⟩]
    ∧ (run_agent
        (fun _ => some ⟨none, some "write_file", some [("path", "README.md"), ("content", "hi")]⟩)
        (fun _ => "n") (fun _ _ => ToolResult.ok "Successfully wrote to 'README.md'")
        "p" "g").confirmRequests = []
    ∧ (run_agent
        (fun _ => some ⟨none, some "write_file", some [("path", "README.md"), ("content", "hi")]⟩)
        (fun _ => "n") (fun _ _ => ToolResult.ok "Successfully wrote to 'README.md'")
        "p" "g").exitMode = ExitMode.policyStop := by
  refine ⟨by decide, by decide, by decide, by decide, by decide⟩

/-- C1, amended: the allow-list consists of the read-only
exploration/analysis tools plus the mutating `write_file`; every action the
loop dispatches to the executor either names an allow-listed tool or was
confirmed with the affirmative "y" (case-insensitively) at some iteration,
and a confirmation answer other than "y" aborts the loop at once, with
nothing dispatched and no interaction recorded. -/
theorem c1_allowlist_and_confirmation :
    (∀ t ∈ auto_execute_tools, t ≠ "write_file" → tool_mutates t = false)
    ∧ (∀ (llm : List Message → Option Action) (ui : Nat → String)
        (bh : String → List (String × String) → ToolResult) (goal : String)
        (fuel i : Nat) (mem : List Message) (taken : List Action)
        (conf : List Nat) (dec : List (String × Nat)) (a : Action),
        a ∈ (runLoop llm ui bh goal fuel i mem taken conf dec).actions_taken →
        a ∈ taken ∨ auto_execute_tools.contains (a.tool.getD "") = true
          ∨ ∃ j, i ≤ j ∧ pyLower (ui j) = "y")
    ∧ (∀ (llm : List Message → Option Action) (ui : Nat → String)
        (bh : String → List (String × String) → ToolResult) (goal : String)
        (fuel i : Nat) (mem : List Message) (taken : List Action)
        (conf : List Nat) (dec : List (String × Nat)) (a0 a : Action),
        llm mem = some a0 → annotate_action a0 goal i = a →
        criticize_tool_call a = none → a.tool ≠ some "finish" →
        auto_execute_tools.contains (a.tool.getD "") = false →
        pyLower (ui i) ≠ "y" →
        runLoop llm ui bh goal (fuel + 1) i mem taken conf dec
          = { exitMode := ExitMode.userAbort, memory := mem, actions_taken := taken,
              learned := none, confirmRequests := conf ++ [i], decideCalls := dec }) :=
  ⟨by decide,
   fun llm ui bh goal fuel i mem taken conf dec a h =>
     runLoop_dispatch_confirmed llm ui bh goal fuel i mem taken conf dec a h,
   fun llm ui bh goal fuel i mem taken conf dec a0 a h1 h2 h3 h4 h5 h6 =>
     runLoop_confirm_abort llm ui bh goal fuel i mem taken conf dec a0 a h1 h2 h3 h4 h5 h6⟩

/-- Witness for C1: a confirmed `execute_command` dispatch satisfies the
dispatch invariant, and the same action answered "no" aborts the loop with
nothing dispatched. -/
theorem c1_witness :
    ((⟨none, some "execute_command", some [("command", "ls")]⟩ : Action) ∈ ([] : List Action)
      ∨ auto_execute_tools.contains
          ((⟨none, some "execute_command", some [("command", "ls")]⟩ : Action).tool.getD "")
          = true
      ∨ ∃ j, 0 ≤ j ∧ pyLower ((fun _ => "y") j) = "y")
    ∧ runLoop (fun _ => some ⟨none, some "execute_command", some [("command", "ls")]⟩)
        (fun _ => "no") (fun _ _ => ToolResult.ok "ok") "g" 1 0 [] [] [] []
      = { exitMode := ExitMode.userAbort, memory := [], actions_taken := [],
          learned := none, confirmRequests := [0], decideCalls := [] } :=
  ⟨c1_allowlist_and_confirmation.2.1
      (fun _ => some ⟨none, some "execute_command", some [("command", "ls")]⟩)
      (fun _ => "y") (fun _ _ => ToolResult.ok "ok") "g" 1 0 [] [] [] []
      ⟨none, some "execute_command", some [("command", "ls")]⟩ (by decide),
   c1_allowlist_and_confirmation.2.2
      (fun _ => some ⟨none, some "execute_command", some [("command", "ls")]⟩)
      (fun _ => "no") (fun _ _ => ToolResult.ok "ok") "g" 0 0 [] [] [] []
      ⟨none, some "execute_command", some [("command", "ls")]⟩
      ⟨none, some "execute_command", some [("command", "ls")]⟩
      rfl rfl (by decide) (by decide) (by decide) (by decide)⟩

/-- When the model boundary always yields a truthy parsed action that carries
an `args` object, the loop can exit neither through the falsy-action break
nor through the uncaught dispatch `KeyError`. -/
theorem runLoop_exits_when_model_ok (llm : List Message → Option Action) (ui : Nat → String)
    (bh : String → List (String × String) → ToolResult) (goal : String)
    (hl : ∀ m, (llm m).isSome = true)
    (hargs : ∀ m a, llm m = some a → a.args.isSome = true) :
    ∀ (fuel i : Nat) (mem : List Message) (taken : List Action)
      (conf : List Nat) (dec : List (String × Nat)),
      (runLoop llm ui bh goal fuel i mem taken conf dec).exitMode ≠ ExitMode.noAction
      ∧ (runLoop llm ui bh goal fuel i mem taken conf dec).exitMode ≠ ExitMode.keyError := by
  intro fuel
  induction fuel with
  | zero =>
    intro i mem taken conf dec
    exact ⟨fun h => (nomatch h), fun h => (nomatch h)⟩
  | succ fuel ih =>
    intro i mem taken conf dec
    cases hlm : llm mem with
    | none => exact absurd (hl mem) (by simp [hlm])
    | some a0 =>
      obtain ⟨aargs, haargs⟩ : ∃ aargs, (annotate_action a0 goal i).args = some aargs := by
        rw [annotate_action_args]
        have h := hargs mem a0 hlm
        cases h2 : a0.args with
        | none => rw [h2] at h; exact absurd h (by simp)
        | some l => exact ⟨l, rfl⟩
      cases hc : criticize_tool_call (annotate_action a0 goal i) with
      | some crit =>
        constructor <;>
        · simp only [runLoop, hlm, hc]
          first
            | exact (ih _ _ _ _ _).1
            | exact (ih _ _ _ _ _).2
      | none =>
        by_cases hf : (annotate_action a0 goal i).tool = some "finish"
        · constructor <;>
          · simp only [runLoop, hlm, hc]
            rw [if_pos hf]
            exact fun h => (nomatch h)
        · obtain ⟨t, htool⟩ := criticize_none_tool_some _ hc
          have hfin : t ≠ "finish" := by
            intro hEq
            exact hf (by rw [htool, hEq])
          obtain ⟨ps, hreg⟩ := criticize_none_registered _ t htool hfin hc
          have hexec : execute_tool bh t aargs = Except.ok (execute_tool_body bh t aargs) :=
            execute_tool_registered bh t aargs ps hreg
          constructor <;>
          · simp only [runLoop, hlm, hc]
            rw [if_neg hf]
            simp only [htool, Option.getD_some, haargs, hexec, execute_tool_execute_command]
            repeat' split
            all_goals first
              | exact (ih _ _ _ _ _).1
              | exact (ih _ _ _ _ _).2
              | exact fun h => (nomatch h)

/-- C3, counterexample: a model boundary whose parsed action is falsy makes
`run_agent` leave its loop through the "Could not get a valid action" break —
a fifth halting path distinct from all four modes named by the claim. -/
theorem c3_counterexample :
    (run_agent (fun _ => none) (fun _ => "y") (fun _ _ => ToolResult.ok "") "p" "g").exitMode
      = ExitMode.noAction
    ∧ ExitMode.noAction ≠ ExitMode.finished
    ∧ ExitMode.noAction ≠ ExitMode.policyStop
    ∧ ExitMode.noAction ≠ ExitMode.userAbort
    ∧ ExitMode.noAction ≠ ExitMode.capExhausted := by
  refine ⟨by decide, by decide, by decide, by decide, by decide⟩

/-- C3, amended: provided the model boundary always returns a truthy parsed
action carrying an `args` key, every run of the agent loop halts by exactly
one of the four modes finish / policy-stop / user-abort / cap-exhausted;
otherwise two further exits exist (the falsy-action break, and an uncaught
`KeyError` when a validated action with no required parameters omits
`args`). -/
theorem c3_four_halting_modes (llm : List Message → Option Action) (ui : Nat → String)
    (bh : String → List (String × String) → ToolResult) (base_prompt goal : String)
    (hl : ∀ m, (llm m).isSome = true)
    (hargs : ∀ m a, llm m = some a → a.args.isSome = true) :
    (run_agent llm ui bh base_prompt goal).exitMode = ExitMode.finished
    ∨ (run_agent llm ui bh base_prompt goal).exitMode = ExitMode.policyStop
    ∨ (run_agent llm ui bh base_prompt goal).exitMode = ExitMode.userAbort
    ∨ (run_agent llm ui bh base_prompt goal).exitMode = ExitMode.capExhausted := by
  have h : (run_agent llm ui bh base_prompt goal).exitMode ≠ ExitMode.noAction
      ∧ (run_agent llm ui bh base_prompt goal).exitMode ≠ ExitMode.keyError :=
    runLoop_exits_when_model_ok llm ui bh goal hl hargs MAX_ITERATIONS 0 _ [] [] []
  cases he : (run_agent llm ui bh base_prompt goal).exitMode with
  | finished => exact Or.inl rfl
  | policyStop => exact Or.inr (Or.inl rfl)
  | userAbort => exact Or.inr (Or.inr (Or.inl rfl))
  | capExhausted => exact Or.inr (Or.inr (Or.inr rfl))
  | noAction => exact absurd he h.1
  | keyError => exact absurd he h.2

/-- Witness for C3: a model that always answers with a well-formed `finish`
action gives a run that halts by one of the four modes. -/
theorem c3_witness :
    (run_agent (fun _ => some ⟨none, some "finish", some [("response", "done")]⟩)
        (fun _ => "y") (fun _ _ => ToolResult.ok "ok") "p" "g").exitMode = ExitMode.finished
    ∨ (run_agent (fun _ => some ⟨none, some "finish", some [("response", "done")]⟩)
        (fun _ => "y") (fun _ _ => ToolResult.ok "ok") "p" "g").exitMode = ExitMode.policyStop
    ∨ (run_agent (fun _ => some ⟨none, some "finish", some [("response", "done")]⟩)
        (fun _ => "y") (fun _ _ => ToolResult.ok "ok") "p" "g").exitMode = ExitMode.userAbort
    ∨ (run_agent (fun _ => some ⟨none, some "finish", some [("response", "done")]⟩)
        (fun _ => "y") (fun _ _ => ToolResult.ok "ok") "p" "g").exitMode
        = ExitMode.capExhausted :=
  c3_four_halting_modes (fun _ => some ⟨none, some "finish", some [("response", "done")]⟩)
    (fun _ => "y") (fun _ _ => ToolResult.ok "ok") "p" "g" (fun _ => rfl)
    (fun _ a h => by cases h; rfl)

/-- Exactly the cap-exhaustion exit carries the failure record: it learns the
interaction with the distinct "Maximum iterations reached" result and success
flag `false`, and no other exit path ever records `success = false`. -/
theorem runLoop_learned_spec (llm : List Message → Option Action) (ui : Nat → String)
    (bh : String → List (String × String) → ToolResult) (goal : String) :
    ∀ (fuel i : Nat) (mem : List Message) (taken : List Action)
      (conf : List Nat) (dec : List (String × Nat)),
      ((runLoop llm ui bh goal fuel i mem taken conf dec).exitMode = ExitMode.capExhausted →
        (runLoop llm ui bh goal fuel i mem taken conf dec).learned
          = some { goal := goal,
                   actions := (runLoop llm ui bh goal fuel i mem taken conf dec).actions_taken,
                   final_result := "Maximum iterations reached", success := false })
      ∧ (∀ rec, (runLoop llm ui bh goal fuel i mem taken conf dec).learned = some rec →
          rec.success = false →
          (runLoop llm ui bh goal fuel i mem taken conf dec).exitMode
            = ExitMode.capExhausted) := by
  intro fuel
  induction fuel with
  | zero =>
    intro i mem taken conf dec
    exact ⟨fun _ => rfl, fun _ _ _ => rfl⟩
  | succ fuel ih =>
    intro i mem taken conf dec
    simp only [runLoop]
    repeat' split
    all_goals first
      | exact ih _ _ _ _ _
      | exact ⟨fun h => absurd h (by simp), fun rec h hf => by
          injection h with h2
          rw [← h2] at hf
          exact absurd hf (by simp)⟩
      | exact ⟨fun h => absurd h (by simp), fun rec h => absurd h (by simp)⟩

/-- C8: when a run of the agent loop exits through the iteration-cap path, it
records the interaction with the learning component as unsuccessful, with the
distinct "Maximum iterations reached" result text, and no other exit path
records a failure (any other learning record carries `success = true`). -/
theorem c8_cap_records_failure (llm : List Message → Option Action) (ui : Nat → String)
    (bh : String → List (String × String) → ToolResult) (base_prompt goal : String) :
    ((run_agent llm ui bh base_prompt goal).exitMode = ExitMode.capExhausted →
      (run_agent llm ui bh base_prompt goal).learned
        = some { goal := goal,
                 actions := (run_agent llm ui bh base_prompt goal).actions_taken,
                 final_result := "Maximum iterations reached", success := false })
    ∧ (∀ rec, (run_agent llm ui bh base_prompt goal).learned = some rec →
        rec.success = false →
        (run_agent llm ui bh base_prompt goal).exitMode = ExitMode.capExhausted) :=
  runLoop_learned_spec llm ui bh goal MAX_ITERATIONS 0 _ [] [] []

/-- Witness for C8: ten consecutive non-terminal iterations exhaust the cap
and the interaction is recorded as a failure. -/
theorem c8_witness :
    (run_agent (fun _ => some ⟨none, some "get_project_health", some []⟩)
        (fun _ => "y") (fun _ _ => ToolResult.ok "ok") "p" "g").learned
      = some { goal := "g",
               actions := (run_agent (fun _ => some ⟨none, some "get_project_health", some []⟩)
                 (fun _ => "y") (fun _ _ => ToolResult.ok "ok") "p" "g").actions_taken,
               final_result := "Maximum iterations reached", success := false } :=
  (c8_cap_records_failure (fun _ => some ⟨none, some "get_project_health", some []⟩)
    (fun _ => "y") (fun _ _ => ToolResult.ok "ok") "p" "g").1 (by decide)

/-- C9, counterexample: a goal with no intent keyword ("hello") is classified
"unknown" and its generated plan is the single project-overview opener — it
contains no intent-specific steps at all, refuting "every generated plan
contains at least two intent-specific steps beyond its opening step". -/
theorem c9_counterexample :
    (analyze_user_intent "hello").intent_type = "unknown"
    ∧ generate_smart_plan "hello"
        = [{ tool := "get_project_overview", args := none,
             reason := "Understand project structure and context", priority := "high" }]
    ∧ (generate_smart_plan "hello").length = 1 := by
  refine ⟨by decide, by decide, by decide⟩

/-- C9, amended: the plan is the initial step(s) followed by the
intent-specific appendix; a goal classified into one of the five known
intents receives exactly two intent-specific steps (one, for a search goal
with no extractable key terms), while an unclassified goal receives none. -/
theorem c9_intent_specific_steps (goal : String) :
    generate_smart_plan goal = initial_plan_steps goal ++ intent_plan_steps goal
    ∧ ((analyze_user_intent goal).intent_type
          ∈ (["analysis", "creation", "debugging", "improvement"] : List String) →
        (intent_plan_steps goal).length = 2)
    ∧ ((analyze_user_intent goal).intent_type = "search" → extract_key_terms goal ≠ [] →
        (intent_plan_steps goal).length = 2)
    ∧ ((analyze_user_intent goal).intent_type = "search" → extract_key_terms goal = [] →
        (intent_plan_steps goal).length = 1)
    ∧ ((analyze_user_intent goal).intent_type = "unknown" → intent_plan_steps goal = []) := by
  refine ⟨rfl, ?_, ?_, ?_, ?_⟩
  · intro h
    simp only [List.mem_cons, List.not_mem_nil, or_false] at h
    rcases h with h | h | h | h <;> simp [intent_plan_steps, h]
  · intro h hk
    cases hk2 : extract_key_terms goal with
    | nil => exact absurd hk2 hk
    | cons x xs => simp [intent_plan_steps, h, hk2]
  · intro h hk
    simp [intent_plan_steps, h, hk]
  · intro h
    simp [intent_plan_steps, h]

/-- Witness for C9: a search goal and an analysis goal each get exactly two
intent-specific steps; an unclassified goal gets none. -/
theorem c9_witness :
    (intent_plan_steps "find parse_config").length = 2
    ∧ (intent_plan_steps "analyze the code").length = 2
    ∧ intent_plan_steps "hello" = [] :=
  ⟨(c9_intent_specific_steps "find parse_config").2.2.1 (by decide) (by decide),
   (c9_intent_specific_steps "analyze the code").2.1 (by decide),
   (c9_intent_specific_steps "hello").2.2.2.2 (by decide)⟩

/-- C10: in the one-shot file-not-found recovery branch the action variable
itself is replaced by the synthesised probe
`{"tool": "execute_command", "args": {"command": "pwd"}}` before the decision
step: the continuation policy is consulted on the probe's observation, the
assistant message appended after recovery serialises the probe rather than
the failing action, and `actions_taken` retains the original action. -/
theorem c10_recovery_replaces_action (llm : List Message → Option Action) (ui : Nat → String)
    (bh : String → List (String × String) → ToolResult) (goal : String)
    (fuel i : Nat) (mem : List Message) (taken : List Action)
    (conf : List Nat) (dec : List (String × Nat)) (a0 a : Action)
    (tname : String) (aargs : List (String × String))
    (hllm : llm mem = some a0) (ha : annotate_action a0 goal i = a)
    (hcrit : criticize_tool_call a = none)
    (htool : a.tool = some tname) (hfin : tname ≠ "finish")
    (hauto : auto_execute_tools.contains tname = true)
    (hargs : a.args = some aargs)
    (hrec1 : strContains (execute_tool_body bh tname aargs) "Error: File" = true)
    (hrec2 : strContains (execute_tool_body bh tname aargs) "not found" = true)
    (hcont : (should_continue (execute_tool_body bh "execute_command" [("command", "pwd")]) i
        MAX_ITERATIONS).1 = true) :
    (dec ++ [(execute_tool_body bh "execute_command" [("command", "pwd")], i)])
      <+: (runLoop llm ui bh goal (fuel + 1) i mem taken conf dec).decideCalls
    ∧ (taken ++ [a]) <+: (runLoop llm ui bh goal (fuel + 1) i mem taken conf dec).actions_taken
    ∧ (mem ++ [⟨"assistant", dumpAction a⟩,
               ⟨"user", recovery_user_message (execute_tool_body bh tname aargs)⟩,
               ⟨"assistant", dumpAction probe_action⟩,
               ⟨"user", "Observation: "
                 ++ execute_tool_body bh "execute_command" [("command", "pwd")]⟩])
        <+: (runLoop llm ui bh goal (fuel + 1) i mem taken conf dec).memory := by
  obtain ⟨ps, hreg⟩ := criticize_none_registered a tname htool hfin hcrit
  have hexec : execute_tool bh tname aargs
      = Except.ok (execute_tool_body bh tname aargs) :=
    execute_tool_registered bh tname aargs ps hreg
  simp only [runLoop, hllm]
  simp only [ha, hcrit]
  simp [htool, hfin, hauto, hargs, hexec, execute_tool_execute_command, hrec1, hrec2, hcont]
  rw [if_pos (show tname ∈ auto_execute_tools by simpa using hauto)]
  exact ⟨(runLoop_prefixes llm ui bh goal fuel (i + 1) _ _ _ _).2.2,
    (runLoop_prefixes llm ui bh goal fuel (i + 1) _ _ _ _).2.1,
    (runLoop_prefixes llm ui bh goal fuel (i + 1) _ _ _ _).1⟩

/-- Witness for C10: a `read_file` that reports a missing file triggers the
recovery branch; the policy sees the probe's observation "/root", the
post-recovery assistant message serialises the probe, and `actions_taken`
keeps the original `read_file` action. -/
theorem c10_witness :
    ([("/root", 0)] : List (String × Nat))
      <+: (runLoop (fun _ => some ⟨none, some "read_file", some [("path", "missing.txt")]⟩)
            (fun _ => "y")
            (fun name _ => if name = "read_file" then
                ToolResult.ok "Error: File 'missing.txt' not found"
              else ToolResult.ok "/root")
            "g" 1 0 [] [] [] []).decideCalls
    ∧ ([(⟨none, some "read_file", some [("path", "missing.txt")]⟩ : Action)])
      <+: (runLoop (fun _ => some ⟨none, some "read_file", some [("path", "missing.txt")]⟩)
            (fun _ => "y")
            (fun name _ => if name = "read_file" then
                ToolResult.ok "Error: File 'missing.txt' not found"
              else ToolResult.ok "/root")
            "g" 1 0 [] [] [] []).actions_taken
    ∧ ([⟨"assistant", dumpAction ⟨none, some "read_file", some [("path", "missing.txt")]⟩⟩,
        ⟨"user", recovery_user_message "Error: File 'missing.txt' not found"⟩,
        ⟨"assistant", dumpAction probe_action⟩,
        ⟨"user", "Observation: /root"⟩] : List Message)
      <+: (runLoop (fun _ => some ⟨none, some "read_file", some [("path", "missing.txt")]⟩)
            (fun _ => "y")
            (fun name _ => if name = "read_file" then
                ToolResult.ok "Error: File 'missing.txt' not found"
              else ToolResult.ok "/root")
            "g" 1 0 [] [] [] []).memory :=
  c10_recovery_replaces_action
    (fun _ => some ⟨none, some "read_file", some [("path", "missing.txt")]⟩)
    (fun _ => "y")
    (fun name _ => if name = "read_file" then
        ToolResult.ok "Error: File 'missing.txt' not found"
      else ToolResult.ok "/root")
    "g" 0 0 [] [] [] []
    ⟨none, some "read_file", some [("path", "missing.txt")]⟩
    ⟨none, some "read_file", some [("path", "missing.txt")]⟩
    "read_file" [("path", "missing.txt")]
    rfl rfl (by decide) rfl (by decide) (by decide) rfl (by decide) (by decide) (by decide)

end Cria
